import Mathlib

/-!
Verification of the rectangle-constraint logic of the streamlit-cropper
frontend (`streamlit_cropper/frontend/src/StreamlitCropper.tsx`).

The geometry is embedded shallowly over `ℚ`: every numeric field of the
fabric rectangle and canvas becomes a rational number, JavaScript's
falsy-defaulting `||` on finite numbers becomes `jsOr`, and the in-place
mutations of `keepRectInsideCanvas` become a pure function returning the
updated rectangle.  Rendering-only effects (`setCoords`,
`requestRenderAll`, control visibility) have no geometric content and are
not modelled.
-/

namespace StreamlitCropper

/-- JavaScript `a || d` restricted to finite numbers: `0` is the only
falsy finite rational, so the expression yields `d` when `a = 0` and `a`
otherwise.  Embeds the `|| 0` / `|| 1` defaulting used at lines 28-31 of
`StreamlitCropper.tsx`. -/
def jsOr (a d : ℚ) : ℚ := if a = 0 then d else a

/-- Embeds `clamp` (`StreamlitCropper.tsx` lines 19-23). -/
def clamp (value min max : ℚ) : ℚ :=
  if value < min then min
  else if value > max then max
  else value

/-- The geometric and style state of the fabric crop rectangle: position
of the untransformed top-left corner (`left`, `top`), untransformed base
size (`width`, `height`), scale factors (`scaleX`, `scaleY`), and the
stroke style carried along by configuration updates. -/
@[ext]
structure Rect where
  left : ℚ
  top : ℚ
  width : ℚ
  height : ℚ
  scaleX : ℚ
  scaleY : ℚ
  stroke : String
  strokeWidth : ℚ
deriving DecidableEq, Repr

/-- The drawable canvas surface: fixed width and height in pixels. -/
structure Canvas where
  width : ℚ
  height : ℚ
deriving DecidableEq, Repr

/-- Embeds `fabricCanvas.getWidth()`. -/
def Canvas.getWidth (c : Canvas) : ℚ := c.width

/-- Embeds `fabricCanvas.getHeight()`. -/
def Canvas.getHeight (c : Canvas) : ℚ := c.height

/-- Modelled from the spec: `rect.getScaledWidth()` comes from the
drawing library (fabric), which is not part of this repository; spec §3
defines the derived quantity as `scaledWidth = width × scaleX`. -/
def Rect.getScaledWidth (r : Rect) : ℚ := r.width * r.scaleX

/-- Modelled from the spec: `rect.getScaledHeight()` comes from the
drawing library (fabric), which is not part of this repository; spec §3
defines the derived quantity as `scaledHeight = height × scaleY`. -/
def Rect.getScaledHeight (r : Rect) : ℚ := r.height * r.scaleY

/-- Embeds `keepRectInsideCanvas` (`StreamlitCropper.tsx` lines 25-68).
The in-place `rect.set` mutations become successive functional updates;
`rect.setCoords()` and `fabricCanvas.requestRenderAll()` only refresh
cached rendering data and are not part of the geometric state. -/
def keepRectInsideCanvas (rect : Rect) (fabricCanvas : Canvas)
    (lockAspect : Bool) : Rect :=
  let canvasWidth := fabricCanvas.getWidth
  let canvasHeight := fabricCanvas.getHeight
  let baseWidth := jsOr rect.width 0
  let baseHeight := jsOr rect.height 0
  let currentScaleX := jsOr rect.scaleX 1
  let currentScaleY := jsOr rect.scaleY 1
  let rect :=
    if baseWidth > 0 ∧ baseHeight > 0 then
      let maxScaleX := canvasWidth / baseWidth
      let maxScaleY := canvasHeight / baseHeight
      if lockAspect then
        let maxUniformScale := min maxScaleX maxScaleY
        if currentScaleX > maxUniformScale ∨ currentScaleY > maxUniformScale then
          { rect with scaleX := maxUniformScale, scaleY := maxUniformScale }
        else rect
      else
        let rect := if currentScaleX > maxScaleX then { rect with scaleX := maxScaleX } else rect
        let rect := if currentScaleY > maxScaleY then { rect with scaleY := maxScaleY } else rect
        rect
    else rect
  let scaledWidth := rect.getScaledWidth
  let scaledHeight := rect.getScaledHeight
  let maxLeft := max (canvasWidth - scaledWidth) 0
  let maxTop := max (canvasHeight - scaledHeight) 0
  -- `rect.left ?? 0` / `rect.top ?? 0`: the fields are always-present
  -- rationals in this model, so nullish coalescing is the identity.
  let nextLeft := clamp rect.left 0 maxLeft
  let nextTop := clamp rect.top 0 maxTop
  { rect with left := nextLeft, top := nextTop }

/-- The scale-clamping half of `keepRectInsideCanvas` (lines 28-53),
split out for proofs; `keepRectInsideCanvas_eq_steps` shows the split is
definitionally the original function. -/
def scaleClampStep (rect : Rect) (canvasWidth canvasHeight : ℚ)
    (lockAspect : Bool) : Rect :=
  let baseWidth := jsOr rect.width 0
  let baseHeight := jsOr rect.height 0
  let currentScaleX := jsOr rect.scaleX 1
  let currentScaleY := jsOr rect.scaleY 1
  if baseWidth > 0 ∧ baseHeight > 0 then
    let maxScaleX := canvasWidth / baseWidth
    let maxScaleY := canvasHeight / baseHeight
    if lockAspect then
      let maxUniformScale := min maxScaleX maxScaleY
      if currentScaleX > maxUniformScale ∨ currentScaleY > maxUniformScale then
        { rect with scaleX := maxUniformScale, scaleY := maxUniformScale }
      else rect
    else
      let rect := if currentScaleX > maxScaleX then { rect with scaleX := maxScaleX } else rect
      let rect := if currentScaleY > maxScaleY then { rect with scaleY := maxScaleY } else rect
      rect
  else rect

/-- The position-clamping half of `keepRectInsideCanvas` (lines 55-65),
split out for proofs. -/
def positionClampStep (rect : Rect) (canvasWidth canvasHeight : ℚ) : Rect :=
  let scaledWidth := rect.getScaledWidth
  let scaledHeight := rect.getScaledHeight
  let maxLeft := max (canvasWidth - scaledWidth) 0
  let maxTop := max (canvasHeight - scaledHeight) 0
  let nextLeft := clamp rect.left 0 maxLeft
  let nextTop := clamp rect.top 0 maxTop
  { rect with left := nextLeft, top := nextTop }

theorem keepRectInsideCanvas_eq_steps (rect : Rect) (c : Canvas) (lockAspect : Bool) :
    keepRectInsideCanvas rect c lockAspect =
      positionClampStep (scaleClampStep rect c.width c.height lockAspect) c.width c.height := rfl

/-- Division that signals rather than totalizes: `none` on a zero
divisor.  Used to express that `keepRectInsideCanvas` never actually
divides by zero. -/
def checkedDiv (a b : ℚ) : Option ℚ :=
  if b = 0 then none else some (a / b)

/-- `keepRectInsideCanvas` with every division routed through
`checkedDiv`: the result is `none` exactly when the original code would
evaluate `canvasWidth / baseWidth` or `canvasHeight / baseHeight` with a
zero divisor. -/
def keepRectInsideCanvasChecked (rect : Rect) (fabricCanvas : Canvas)
    (lockAspect : Bool) : Option Rect :=
  let canvasWidth := fabricCanvas.getWidth
  let canvasHeight := fabricCanvas.getHeight
  let baseWidth := jsOr rect.width 0
  let baseHeight := jsOr rect.height 0
  let currentScaleX := jsOr rect.scaleX 1
  let currentScaleY := jsOr rect.scaleY 1
  let step1 : Option Rect :=
    if baseWidth > 0 ∧ baseHeight > 0 then
      (checkedDiv canvasWidth baseWidth).bind fun maxScaleX =>
        (checkedDiv canvasHeight baseHeight).bind fun maxScaleY =>
          if lockAspect then
            let maxUniformScale := min maxScaleX maxScaleY
            if currentScaleX > maxUniformScale ∨ currentScaleY > maxUniformScale then
              some { rect with scaleX := maxUniformScale, scaleY := maxUniformScale }
            else some rect
          else
            let rect := if currentScaleX > maxScaleX then { rect with scaleX := maxScaleX } else rect
            let rect := if currentScaleY > maxScaleY then { rect with scaleY := maxScaleY } else rect
            some rect
    else some rect
  step1.map fun rect => positionClampStep rect canvasWidth canvasHeight

theorem checkedDiv_of_ne {b : ℚ} (a : ℚ) (h : b ≠ 0) : checkedDiv a b = some (a / b) :=
  if_neg h

/-- Host-supplied configuration object (`PythonArgs`,
`StreamlitCropper.tsx` lines 5-17).  `imageData` is the base64 payload,
kept abstract as a string. -/
structure PythonArgs where
  canvasWidth : ℚ
  canvasHeight : ℚ
  rectTop : ℚ
  rectLeft : ℚ
  rectWidth : ℚ
  rectHeight : ℚ
  realtimeUpdate : Bool
  boxColor : String
  strokeWidth : ℚ
  imageData : String
  lockAspect : Bool
deriving DecidableEq, Repr

/-- Embeds the rectangle created by the first-run effect
(`StreamlitCropper.tsx` lines 99-126): a fabric `Rect` built from the
incoming configuration (fabric's default scale factors are `1`),
immediately normalized by `keepRectInsideCanvas`.  Control-visibility and
rotation-handle settings are rendering state, not geometry. -/
def mkInitialRect (args : PythonArgs) (fabricCanvas : Canvas) : Rect :=
  let rect : Rect :=
    { left := args.rectLeft
      top := args.rectTop
      width := args.rectWidth
      height := args.rectHeight
      scaleX := 1
      scaleY := 1
      stroke := args.boxColor
      strokeWidth := args.strokeWidth }
  keepRectInsideCanvas rect fabricCanvas args.lockAspect

/-- Embeds the reconfigure effect that runs on every `props.args` change
after initialization (`StreamlitCropper.tsx` lines 138-166): `rect.set`
overwrites position, size and stroke style from the incoming
configuration (scale factors are left as they are), then
`keepRectInsideCanvas` re-runs. -/
def reconfigureRect (rect : Rect) (fabricCanvas : Canvas) (args : PythonArgs) : Rect :=
  let rect :=
    { rect with
      left := args.rectLeft
      top := args.rectTop
      width := args.rectWidth
      height := args.rectHeight
      stroke := args.boxColor
      strokeWidth := args.strokeWidth }
  keepRectInsideCanvas rect fabricCanvas args.lockAspect

/-! ### Basic lemmas about `clamp` and `jsOr` -/

theorem clamp_mem {lo hi : ℚ} (v : ℚ) (h : lo ≤ hi) :
    lo ≤ clamp v lo hi ∧ clamp v lo hi ≤ hi := by
  unfold clamp
  split_ifs with h1 h2
  · exact ⟨le_refl _, h⟩
  · exact ⟨h, le_refl _⟩
  · exact ⟨not_lt.mp h1, not_lt.mp h2⟩

theorem clamp_eq_of_mem {v lo hi : ℚ} (h1 : lo ≤ v) (h2 : v ≤ hi) :
    clamp v lo hi = v := by
  unfold clamp
  rw [if_neg (not_lt.mpr h1), if_neg (not_lt.mpr h2)]

theorem clamp_idem {lo hi : ℚ} (v : ℚ) (h : lo ≤ hi) :
    clamp (clamp v lo hi) lo hi = clamp v lo hi :=
  clamp_eq_of_mem (clamp_mem v h).1 (clamp_mem v h).2

theorem clamp_eq_max_min {lo hi : ℚ} (v : ℚ) (h : lo ≤ hi) :
    clamp v lo hi = max lo (min v hi) := by
  unfold clamp
  split_ifs with h1 h2
  · rw [max_eq_left]
    exact min_le_of_left_le h1.le
  · rw [min_eq_right h2.le, max_eq_right h]
  · rw [min_eq_left (not_lt.mp h2), max_eq_right (not_lt.mp h1)]

theorem clamp_zero_zero (v : ℚ) : clamp v 0 0 = 0 := by
  unfold clamp
  split_ifs with h1 h2
  · rfl
  · rfl
  · linarith [not_lt.mp h1, not_lt.mp h2]

theorem jsOr_of_ne {a : ℚ} (d : ℚ) (h : a ≠ 0) : jsOr a d = a := if_neg h

theorem jsOr_of_pos {a : ℚ} (d : ℚ) (h : 0 < a) : jsOr a d = a :=
  jsOr_of_ne d (ne_of_gt h)

/-! ### Frame lemmas: which fields each step leaves untouched -/

theorem scaleClampStep_left (r : Rect) (cw ch : ℚ) (la : Bool) :
    (scaleClampStep r cw ch la).left = r.left := by
  simp only [scaleClampStep]; split_ifs <;> rfl

theorem scaleClampStep_top (r : Rect) (cw ch : ℚ) (la : Bool) :
    (scaleClampStep r cw ch la).top = r.top := by
  simp only [scaleClampStep]; split_ifs <;> rfl

theorem scaleClampStep_width (r : Rect) (cw ch : ℚ) (la : Bool) :
    (scaleClampStep r cw ch la).width = r.width := by
  simp only [scaleClampStep]; split_ifs <;> rfl

theorem scaleClampStep_height (r : Rect) (cw ch : ℚ) (la : Bool) :
    (scaleClampStep r cw ch la).height = r.height := by
  simp only [scaleClampStep]; split_ifs <;> rfl

theorem scaleClampStep_stroke (r : Rect) (cw ch : ℚ) (la : Bool) :
    (scaleClampStep r cw ch la).stroke = r.stroke := by
  simp only [scaleClampStep]; split_ifs <;> rfl

theorem scaleClampStep_strokeWidth (r : Rect) (cw ch : ℚ) (la : Bool) :
    (scaleClampStep r cw ch la).strokeWidth = r.strokeWidth := by
  simp only [scaleClampStep]; split_ifs <;> rfl

theorem positionClampStep_width (r : Rect) (cw ch : ℚ) :
    (positionClampStep r cw ch).width = r.width := rfl

theorem positionClampStep_height (r : Rect) (cw ch : ℚ) :
    (positionClampStep r cw ch).height = r.height := rfl

theorem positionClampStep_scaleX (r : Rect) (cw ch : ℚ) :
    (positionClampStep r cw ch).scaleX = r.scaleX := rfl

theorem positionClampStep_scaleY (r : Rect) (cw ch : ℚ) :
    (positionClampStep r cw ch).scaleY = r.scaleY := rfl

theorem positionClampStep_stroke (r : Rect) (cw ch : ℚ) :
    (positionClampStep r cw ch).stroke = r.stroke := rfl

theorem positionClampStep_strokeWidth (r : Rect) (cw ch : ℚ) :
    (positionClampStep r cw ch).strokeWidth = r.strokeWidth := rfl

theorem positionClampStep_left (r : Rect) (cw ch : ℚ) :
    (positionClampStep r cw ch).left =
      clamp r.left 0 (max (cw - r.width * r.scaleX) 0) := rfl

theorem positionClampStep_top (r : Rect) (cw ch : ℚ) :
    (positionClampStep r cw ch).top =
      clamp r.top 0 (max (ch - r.height * r.scaleY) 0) := rfl

/-! ### Characterization of the scale-clamping step -/

theorem scaleClampStep_scaleX_eq (r : Rect) (cw ch : ℚ) (la : Bool) :
    (scaleClampStep r cw ch la).scaleX =
      if jsOr r.width 0 > 0 ∧ jsOr r.height 0 > 0 then
        if la then
          if jsOr r.scaleX 1 > min (cw / jsOr r.width 0) (ch / jsOr r.height 0) ∨
             jsOr r.scaleY 1 > min (cw / jsOr r.width 0) (ch / jsOr r.height 0) then
            min (cw / jsOr r.width 0) (ch / jsOr r.height 0)
          else r.scaleX
        else
          if jsOr r.scaleX 1 > cw / jsOr r.width 0 then cw / jsOr r.width 0 else r.scaleX
      else r.scaleX := by
  simp only [scaleClampStep]; split_ifs <;> rfl

theorem scaleClampStep_scaleY_eq (r : Rect) (cw ch : ℚ) (la : Bool) :
    (scaleClampStep r cw ch la).scaleY =
      if jsOr r.width 0 > 0 ∧ jsOr r.height 0 > 0 then
        if la then
          if jsOr r.scaleX 1 > min (cw / jsOr r.width 0) (ch / jsOr r.height 0) ∨
             jsOr r.scaleY 1 > min (cw / jsOr r.width 0) (ch / jsOr r.height 0) then
            min (cw / jsOr r.width 0) (ch / jsOr r.height 0)
          else r.scaleY
        else
          if jsOr r.scaleY 1 > ch / jsOr r.height 0 then ch / jsOr r.height 0 else r.scaleY
      else r.scaleY := by
  simp only [scaleClampStep]; split_ifs <;> rfl

theorem scaleClampStep_of_not_guard (r : Rect) (cw ch : ℚ) (la : Bool)
    (h : ¬(jsOr r.width 0 > 0 ∧ jsOr r.height 0 > 0)) :
    scaleClampStep r cw ch la = r := by
  unfold scaleClampStep
  rw [if_neg h]

theorem scaleClampStep_lock_clamped (r : Rect) (cw ch : ℚ)
    (hG : jsOr r.width 0 > 0 ∧ jsOr r.height 0 > 0)
    (hT : jsOr r.scaleX 1 > min (cw / jsOr r.width 0) (ch / jsOr r.height 0) ∨
          jsOr r.scaleY 1 > min (cw / jsOr r.width 0) (ch / jsOr r.height 0)) :
    scaleClampStep r cw ch true =
      { r with scaleX := min (cw / jsOr r.width 0) (ch / jsOr r.height 0),
               scaleY := min (cw / jsOr r.width 0) (ch / jsOr r.height 0) } := by
  simp only [scaleClampStep]
  rw [if_pos hG, if_pos hT]
  split_ifs with h
  · rfl
  · exact absurd (by trivial) h

theorem scaleClampStep_lock_unclamped (r : Rect) (cw ch : ℚ)
    (hT : ¬(jsOr r.scaleX 1 > min (cw / jsOr r.width 0) (ch / jsOr r.height 0) ∨
            jsOr r.scaleY 1 > min (cw / jsOr r.width 0) (ch / jsOr r.height 0))) :
    scaleClampStep r cw ch true = r := by
  simp only [scaleClampStep]
  split_ifs with hG
  · rfl
  · rfl

theorem scaleClampStep_free_eq (r : Rect) (cw ch : ℚ)
    (hG : jsOr r.width 0 > 0 ∧ jsOr r.height 0 > 0) :
    scaleClampStep r cw ch false =
      { r with
        scaleX := if jsOr r.scaleX 1 > cw / jsOr r.width 0 then cw / jsOr r.width 0 else r.scaleX,
        scaleY := if jsOr r.scaleY 1 > ch / jsOr r.height 0 then ch / jsOr r.height 0
                  else r.scaleY } := by
  rcases r with ⟨l, t, w, h, sx, sy, st, sw⟩
  have hG' : jsOr w 0 > 0 ∧ jsOr h 0 > 0 := hG
  simp only [scaleClampStep]
  rw [if_pos hG', if_neg Bool.false_ne_true]
  split_ifs <;> rfl

/-! ### Idempotence of the two steps -/

theorem scaleClampStep_idem (r : Rect) (cw ch : ℚ) (la : Bool) :
    scaleClampStep (scaleClampStep r cw ch la) cw ch la = scaleClampStep r cw ch la := by
  by_cases hG : jsOr r.width 0 > 0 ∧ jsOr r.height 0 > 0
  · cases la
    · -- independent per-axis clamping
      rw [scaleClampStep_free_eq r cw ch hG]
      set maxX := cw / jsOr r.width 0 with hmX
      set maxY := ch / jsOr r.height 0 with hmY
      set sx' : ℚ := if jsOr r.scaleX 1 > maxX then maxX else r.scaleX with hsx
      set sy' : ℚ := if jsOr r.scaleY 1 > maxY then maxY else r.scaleY with hsy
      have hG' : jsOr ({ r with scaleX := sx', scaleY := sy' } : Rect).width 0 > 0 ∧
          jsOr ({ r with scaleX := sx', scaleY := sy' } : Rect).height 0 > 0 := hG
      rw [scaleClampStep_free_eq _ cw ch hG']
      ext
      · rfl
      · rfl
      · rfl
      · rfl
      · show (if jsOr sx' 1 > maxX then maxX else sx') = sx'
        rcases lt_or_ge maxX (jsOr r.scaleX 1) with hgt | hle
        · have : sx' = maxX := by rw [hsx, if_pos hgt]
          rw [this]
          split_ifs <;> rfl
        · have : sx' = r.scaleX := by rw [hsx, if_neg (not_lt.mpr hle)]
          rw [this, if_neg (not_lt.mpr hle)]
      · show (if jsOr sy' 1 > maxY then maxY else sy') = sy'
        rcases lt_or_ge maxY (jsOr r.scaleY 1) with hgt | hle
        · have : sy' = maxY := by rw [hsy, if_pos hgt]
          rw [this]
          split_ifs <;> rfl
        · have : sy' = r.scaleY := by rw [hsy, if_neg (not_lt.mpr hle)]
          rw [this, if_neg (not_lt.mpr hle)]
      · rfl
      · rfl
    · -- uniform clamping under aspect lock
      set M := min (cw / jsOr r.width 0) (ch / jsOr r.height 0) with hM
      by_cases hT : jsOr r.scaleX 1 > M ∨ jsOr r.scaleY 1 > M
      · rw [scaleClampStep_lock_clamped r cw ch hG hT]
        set r' : Rect := { r with scaleX := M, scaleY := M } with hr'
        by_cases hT' : jsOr r'.scaleX 1 > M ∨ jsOr r'.scaleY 1 > M
        · rw [scaleClampStep_lock_clamped r' cw ch hG hT']
        · exact scaleClampStep_lock_unclamped r' cw ch hT'
      · rw [scaleClampStep_lock_unclamped r cw ch hT,
            scaleClampStep_lock_unclamped r cw ch hT]
  · rw [scaleClampStep_of_not_guard r cw ch la hG,
        scaleClampStep_of_not_guard r cw ch la hG]

theorem positionClampStep_idem (r : Rect) (cw ch : ℚ) :
    positionClampStep (positionClampStep r cw ch) cw ch = positionClampStep r cw ch := by
  refine Rect.ext ?_ ?_ rfl rfl rfl rfl rfl rfl
  · exact clamp_idem r.left (le_max_right _ 0)
  · exact clamp_idem r.top (le_max_right _ 0)

/-- The scale step only reads the base size and the scale factors, so two
rectangles agreeing on those four fields get the same corrected scale
factors. -/
theorem scaleClampStep_scales_congr {x y : Rect} (cw ch : ℚ) (la : Bool)
    (hw : x.width = y.width) (hh : x.height = y.height)
    (hx : x.scaleX = y.scaleX) (hy : x.scaleY = y.scaleY) :
    (scaleClampStep x cw ch la).scaleX = (scaleClampStep y cw ch la).scaleX ∧
    (scaleClampStep x cw ch la).scaleY = (scaleClampStep y cw ch la).scaleY := by
  rw [scaleClampStep_scaleX_eq, scaleClampStep_scaleX_eq,
      scaleClampStep_scaleY_eq, scaleClampStep_scaleY_eq, hw, hh, hx, hy]
  exact ⟨rfl, rfl⟩

/-- After the position step, the scale step has nothing left to do: the
position step only moves `left`/`top`, which the scale step ignores. -/
theorem scaleClampStep_after_position (r : Rect) (cw ch : ℚ) (la : Bool) :
    scaleClampStep (positionClampStep (scaleClampStep r cw ch la) cw ch) cw ch la =
      positionClampStep (scaleClampStep r cw ch la) cw ch := by
  set r1 := scaleClampStep r cw ch la with hr1
  set r2 := positionClampStep r1 cw ch with hr2
  have hfields : r2.width = r1.width ∧ r2.height = r1.height ∧
      r2.scaleX = r1.scaleX ∧ r2.scaleY = r1.scaleY :=
    ⟨positionClampStep_width r1 cw ch, positionClampStep_height r1 cw ch,
     positionClampStep_scaleX r1 cw ch, positionClampStep_scaleY r1 cw ch⟩
  have hcongr := scaleClampStep_scales_congr (x := r2) (y := r1) cw ch la
    hfields.1 hfields.2.1 hfields.2.2.1 hfields.2.2.2
  have hS1 : scaleClampStep r1 cw ch la = r1 := scaleClampStep_idem r cw ch la
  refine Rect.ext ?_ ?_ ?_ ?_ ?_ ?_ ?_ ?_
  · exact scaleClampStep_left r2 cw ch la
  · exact scaleClampStep_top r2 cw ch la
  · exact scaleClampStep_width r2 cw ch la
  · exact scaleClampStep_height r2 cw ch la
  · rw [hcongr.1, hS1]
    exact hfields.2.2.1.symm
  · rw [hcongr.2, hS1]
    exact hfields.2.2.2.symm
  · exact scaleClampStep_stroke r2 cw ch la
  · exact scaleClampStep_strokeWidth r2 cw ch la

/-! ### Scale and position bounds -/

theorem mul_le_of_le_div {w s c : ℚ} (hw : 0 < w) (h : s ≤ c / w) : w * s ≤ c := by
  have := (le_div_iff₀ hw).mp h
  linarith

/-- With positive base sizes and a positive canvas width, the scale step
leaves the scaled width no larger than the canvas width. -/
theorem scaleClampStep_scaledWidth_le (r : Rect) (cw ch : ℚ) (la : Bool)
    (hw : 0 < r.width) (hh : 0 < r.height) (hcw : 0 < cw) :
    r.width * (scaleClampStep r cw ch la).scaleX ≤ cw := by
  have hW : jsOr r.width 0 = r.width := jsOr_of_pos 0 hw
  have hH : jsOr r.height 0 = r.height := jsOr_of_pos 0 hh
  have hG : jsOr r.width 0 > 0 ∧ jsOr r.height 0 > 0 := by
    rw [hW, hH]; exact ⟨hw, hh⟩
  have hcancel : r.width * (cw / r.width) = cw := by
    rw [mul_comm, div_mul_cancel₀ _ (ne_of_gt hw)]
  have hofself : ∀ s : ℚ, s ≤ cw / r.width → r.width * s ≤ cw := fun s hs =>
    mul_le_of_le_div hw hs
  have hzero : ∀ s : ℚ, s = 0 → r.width * s ≤ cw := fun s hs => by
    rw [hs, mul_zero]; exact hcw.le
  rw [scaleClampStep_scaleX_eq, if_pos hG, hW, hH]
  cases la
  · simp only [Bool.false_eq_true, if_false]
    split_ifs with h
    · exact le_of_eq hcancel
    · by_cases hs : r.scaleX = 0
      · exact hzero _ hs
      · refine hofself _ ?_
        have : jsOr r.scaleX 1 = r.scaleX := jsOr_of_ne 1 hs
        rw [← this]
        exact not_lt.mp h
  · simp only [if_true]
    split_ifs with h
    · exact hofself _ (min_le_left _ _)
    · by_cases hs : r.scaleX = 0
      · exact hzero _ hs
      · refine hofself _ ?_
        have heq : jsOr r.scaleX 1 = r.scaleX := jsOr_of_ne 1 hs
        push_neg at h
        calc r.scaleX = jsOr r.scaleX 1 := heq.symm
          _ ≤ min (cw / r.width) (ch / r.height) := h.1
          _ ≤ cw / r.width := min_le_left _ _

/-- Mirror image of `scaleClampStep_scaledWidth_le` for the vertical
axis. -/
theorem scaleClampStep_scaledHeight_le (r : Rect) (cw ch : ℚ) (la : Bool)
    (hw : 0 < r.width) (hh : 0 < r.height) (hch : 0 < ch) :
    r.height * (scaleClampStep r cw ch la).scaleY ≤ ch := by
  have hW : jsOr r.width 0 = r.width := jsOr_of_pos 0 hw
  have hH : jsOr r.height 0 = r.height := jsOr_of_pos 0 hh
  have hG : jsOr r.width 0 > 0 ∧ jsOr r.height 0 > 0 := by
    rw [hW, hH]; exact ⟨hw, hh⟩
  have hofself : ∀ s : ℚ, s ≤ ch / r.height → r.height * s ≤ ch := fun s hs =>
    mul_le_of_le_div hh hs
  have hzero : ∀ s : ℚ, s = 0 → r.height * s ≤ ch := fun s hs => by
    rw [hs, mul_zero]; exact hch.le
  rw [scaleClampStep_scaleY_eq, if_pos hG, hW, hH]
  cases la
  · simp only [Bool.false_eq_true, if_false]
    split_ifs with h
    · exact le_of_eq (by rw [mul_comm, div_mul_cancel₀ _ (ne_of_gt hh)])
    · by_cases hs : r.scaleY = 0
      · exact hzero _ hs
      · refine hofself _ ?_
        have : jsOr r.scaleY 1 = r.scaleY := jsOr_of_ne 1 hs
        rw [← this]
        exact not_lt.mp h
  · simp only [if_true]
    split_ifs with h
    · exact hofself _ (min_le_right _ _)
    · by_cases hs : r.scaleY = 0
      · exact hzero _ hs
      · refine hofself _ ?_
        have heq : jsOr r.scaleY 1 = r.scaleY := jsOr_of_ne 1 hs
        push_neg at h
        calc r.scaleY = jsOr r.scaleY 1 := heq.symm
          _ ≤ min (cw / r.width) (ch / r.height) := h.2
          _ ≤ ch / r.height := min_le_right _ _

/-- Whenever the scaled size fits in the canvas, the position step lands
the rectangle fully inside it. -/
theorem positionClampStep_bounds (r : Rect) (cw ch : ℚ)
    (hsw : r.width * r.scaleX ≤ cw) (hsh : r.height * r.scaleY ≤ ch) :
    0 ≤ (positionClampStep r cw ch).left ∧ 0 ≤ (positionClampStep r cw ch).top ∧
    (positionClampStep r cw ch).left + r.width * r.scaleX ≤ cw ∧
    (positionClampStep r cw ch).top + r.height * r.scaleY ≤ ch := by
  have hL := clamp_mem r.left (le_max_right (cw - r.width * r.scaleX) 0)
  have hT := clamp_mem r.top (le_max_right (ch - r.height * r.scaleY) 0)
  have hmaxL : max (cw - r.width * r.scaleX) 0 = cw - r.width * r.scaleX :=
    max_eq_left (by linarith)
  have hmaxT : max (ch - r.height * r.scaleY) 0 = ch - r.height * r.scaleY :=
    max_eq_left (by linarith)
  rw [hmaxL] at hL
  rw [hmaxT] at hT
  refine ⟨?_, ?_, ?_, ?_⟩
  · rw [positionClampStep_left, hmaxL]
    exact hL.1
  · rw [positionClampStep_top, hmaxT]
    exact hT.1
  · have := hL.2
    rw [positionClampStep_left, hmaxL]
    linarith
  · have := hT.2
    rw [positionClampStep_top, hmaxT]
    linarith

/-! ### C1: always-in-bounds invariant -/

/-- C1 (amended): for every rectangle whose base width and height are
positive, every canvas of size at least 1×1, and either value of the
aspect-lock flag, a single run of `keepRectInsideCanvas` yields
`left ≥ 0`, `top ≥ 0`, `left + scaledWidth ≤ canvasWidth` and
`top + scaledHeight ≤ canvasHeight`, where the scaled sizes are the base
sizes times the (possibly clamped) scale factors.  The positivity of the
base sizes is necessary: see the counterexample theorem. -/
theorem c1_keepRectInsideCanvas_in_bounds (r : Rect) (c : Canvas) (la : Bool)
    (hw : 0 < r.width) (hh : 0 < r.height)
    (hcw : 1 ≤ c.width) (hch : 1 ≤ c.height) :
    0 ≤ (keepRectInsideCanvas r c la).left ∧
    0 ≤ (keepRectInsideCanvas r c la).top ∧
    (keepRectInsideCanvas r c la).left +
        (keepRectInsideCanvas r c la).width * (keepRectInsideCanvas r c la).scaleX ≤ c.width ∧
    (keepRectInsideCanvas r c la).top +
        (keepRectInsideCanvas r c la).height * (keepRectInsideCanvas r c la).scaleY ≤
      c.height := by
  rw [keepRectInsideCanvas_eq_steps]
  have hw1 : (scaleClampStep r c.width c.height la).width = r.width :=
    scaleClampStep_width r c.width c.height la
  have hh1 : (scaleClampStep r c.width c.height la).height = r.height :=
    scaleClampStep_height r c.width c.height la
  have hsw : (scaleClampStep r c.width c.height la).width *
      (scaleClampStep r c.width c.height la).scaleX ≤ c.width := by
    rw [hw1]
    exact scaleClampStep_scaledWidth_le r c.width c.height la hw hh (by linarith)
  have hsh : (scaleClampStep r c.width c.height la).height *
      (scaleClampStep r c.width c.height la).scaleY ≤ c.height := by
    rw [hh1]
    exact scaleClampStep_scaledHeight_le r c.width c.height la hw hh (by linarith)
  have hb := positionClampStep_bounds (scaleClampStep r c.width c.height la)
    c.width c.height hsw hsh
  exact ⟨hb.1, hb.2.1, hb.2.2.1, hb.2.2.2⟩

/-- C1 fails as originally stated (for arbitrary finite base sizes): a
rectangle with base height `0` skips scale clamping, so its scaled width
`100 × 10 = 1000` overflows the `400×300` canvas even after the position
clamp pins `left` to `0`. -/
theorem c1_counterexample :
    ¬(0 ≤ (keepRectInsideCanvas ⟨0, 0, 100, 0, 10, 1, "blue", 3⟩ ⟨400, 300⟩ false).left ∧
      0 ≤ (keepRectInsideCanvas ⟨0, 0, 100, 0, 10, 1, "blue", 3⟩ ⟨400, 300⟩ false).top ∧
      (keepRectInsideCanvas ⟨0, 0, 100, 0, 10, 1, "blue", 3⟩ ⟨400, 300⟩ false).left +
          (keepRectInsideCanvas ⟨0, 0, 100, 0, 10, 1, "blue", 3⟩ ⟨400, 300⟩ false).width *
            (keepRectInsideCanvas ⟨0, 0, 100, 0, 10, 1, "blue", 3⟩ ⟨400, 300⟩ false).scaleX ≤
        (400 : ℚ) ∧
      (keepRectInsideCanvas ⟨0, 0, 100, 0, 10, 1, "blue", 3⟩ ⟨400, 300⟩ false).top +
          (keepRectInsideCanvas ⟨0, 0, 100, 0, 10, 1, "blue", 3⟩ ⟨400, 300⟩ false).height *
            (keepRectInsideCanvas ⟨0, 0, 100, 0, 10, 1, "blue", 3⟩ ⟨400, 300⟩ false).scaleY ≤
        (300 : ℚ)) := by
  have h : keepRectInsideCanvas ⟨0, 0, 100, 0, 10, 1, "blue", 3⟩ ⟨400, 300⟩ false =
      ⟨0, 0, 100, 0, 10, 1, "blue", 3⟩ := by
    norm_num [keepRectInsideCanvas, jsOr, clamp, Canvas.getWidth, Canvas.getHeight,
      Rect.getScaledWidth, Rect.getScaledHeight]
  rw [h]
  norm_num

/-- C1 witness: the amended invariant instantiated at a concrete
100×100-base rectangle on a 400×300 canvas. -/
theorem c1_witness :
    0 ≤ (keepRectInsideCanvas ⟨50, 50, 100, 100, 1, 1, "blue", 3⟩ ⟨400, 300⟩ false).left ∧
    0 ≤ (keepRectInsideCanvas ⟨50, 50, 100, 100, 1, 1, "blue", 3⟩ ⟨400, 300⟩ false).top ∧
    (keepRectInsideCanvas ⟨50, 50, 100, 100, 1, 1, "blue", 3⟩ ⟨400, 300⟩ false).left +
        (keepRectInsideCanvas ⟨50, 50, 100, 100, 1, 1, "blue", 3⟩ ⟨400, 300⟩ false).width *
          (keepRectInsideCanvas ⟨50, 50, 100, 100, 1, 1, "blue", 3⟩ ⟨400, 300⟩ false).scaleX ≤
      (⟨400, 300⟩ : Canvas).width ∧
    (keepRectInsideCanvas ⟨50, 50, 100, 100, 1, 1, "blue", 3⟩ ⟨400, 300⟩ false).top +
        (keepRectInsideCanvas ⟨50, 50, 100, 100, 1, 1, "blue", 3⟩ ⟨400, 300⟩ false).height *
          (keepRectInsideCanvas ⟨50, 50, 100, 100, 1, 1, "blue", 3⟩ ⟨400, 300⟩ false).scaleY ≤
      (⟨400, 300⟩ : Canvas).height :=
  c1_keepRectInsideCanvas_in_bounds ⟨50, 50, 100, 100, 1, 1, "blue", 3⟩ ⟨400, 300⟩ false
    (by norm_num) (by norm_num) (by norm_num) (by norm_num)

/-! ### C2: aspect-lock and the scale factors -/

/-- C2 (amended): with `lockAspect = true`, `keepRectInsideCanvas`
preserves the equality `scaleX = scaleY` whenever it already holds, and
whenever the call changes `scaleX` at all it sets both factors to the
same uniform value.  It does not force `scaleX = scaleY` on inputs whose
unequal scales are already within bounds (see the counterexample). -/
theorem c2_lockAspect_scales (r : Rect) (c : Canvas) :
    (r.scaleX = r.scaleY →
      (keepRectInsideCanvas r c true).scaleX = (keepRectInsideCanvas r c true).scaleY) ∧
    ((keepRectInsideCanvas r c true).scaleX ≠ r.scaleX →
      (keepRectInsideCanvas r c true).scaleX = (keepRectInsideCanvas r c true).scaleY) := by
  rw [keepRectInsideCanvas_eq_steps]
  rw [positionClampStep_scaleX, positionClampStep_scaleY,
      scaleClampStep_scaleX_eq, scaleClampStep_scaleY_eq]
  simp only [eq_self_iff_true, if_true]
  constructor
  · intro h
    rw [h]
  · intro hne
    split_ifs at hne ⊢
    · rfl
    · exact absurd rfl hne
    · exact absurd rfl hne

/-- C2 fails as stated universally: on a `400×300` canvas a `100×100`
base rectangle with `scaleX = 1`, `scaleY = 2` is within the uniform
bound `3`, so the lock branch leaves the two unequal scale factors
untouched. -/
theorem c2_counterexample :
    ¬((keepRectInsideCanvas ⟨50, 50, 100, 100, 1, 2, "blue", 3⟩ ⟨400, 300⟩ true).scaleX =
      (keepRectInsideCanvas ⟨50, 50, 100, 100, 1, 2, "blue", 3⟩ ⟨400, 300⟩ true).scaleY) := by
  have h : keepRectInsideCanvas ⟨50, 50, 100, 100, 1, 2, "blue", 3⟩ ⟨400, 300⟩ true =
      ⟨50, 50, 100, 100, 1, 2, "blue", 3⟩ := by
    norm_num [keepRectInsideCanvas, jsOr, clamp, Canvas.getWidth, Canvas.getHeight,
      Rect.getScaledWidth, Rect.getScaledHeight]
  rw [h]
  norm_num

/-- C2 witness: equal scale factors stay equal through the lock branch. -/
theorem c2_witness :
    (keepRectInsideCanvas ⟨50, 50, 100, 100, 2, 2, "blue", 3⟩ ⟨400, 300⟩ true).scaleX =
      (keepRectInsideCanvas ⟨50, 50, 100, 100, 2, 2, "blue", 3⟩ ⟨400, 300⟩ true).scaleY :=
  (c2_lockAspect_scales ⟨50, 50, 100, 100, 2, 2, "blue", 3⟩ ⟨400, 300⟩).1 rfl

/-! ### C4: no over-correction of in-bounds scales -/

/-- C4 (amended): with `lockAspect = false` an effective scale factor
(`scaleX`, read as `1` when it is `0`) that is within its per-axis bound
is left unchanged, axis by axis; with `lockAspect = true` the scale
factors are left unchanged provided both effective factors are within
the uniform bound `min(maxScaleX, maxScaleY)`.  A per-axis-in-bounds
factor can still be changed by the lock branch (see the
counterexample). -/
theorem c4_no_overcorrection (r : Rect) (c : Canvas) :
    ((jsOr r.scaleX 1 ≤ c.width / jsOr r.width 0 →
        (keepRectInsideCanvas r c false).scaleX = r.scaleX) ∧
     (jsOr r.scaleY 1 ≤ c.height / jsOr r.height 0 →
        (keepRectInsideCanvas r c false).scaleY = r.scaleY)) ∧
    (jsOr r.scaleX 1 ≤ min (c.width / jsOr r.width 0) (c.height / jsOr r.height 0) →
     jsOr r.scaleY 1 ≤ min (c.width / jsOr r.width 0) (c.height / jsOr r.height 0) →
        (keepRectInsideCanvas r c true).scaleX = r.scaleX ∧
        (keepRectInsideCanvas r c true).scaleY = r.scaleY) := by
  rw [keepRectInsideCanvas_eq_steps r c false, keepRectInsideCanvas_eq_steps r c true]
  refine ⟨⟨fun hx => ?_, fun hy => ?_⟩, fun hx hy => ?_⟩
  · rw [positionClampStep_scaleX, scaleClampStep_scaleX_eq]
    simp only [Bool.false_eq_true, if_false]
    split_ifs with h1 h2
    · exact absurd hx (not_le.mpr h2)
    · rfl
    · rfl
  · rw [positionClampStep_scaleY, scaleClampStep_scaleY_eq]
    simp only [Bool.false_eq_true, if_false]
    split_ifs with h1 h2
    · exact absurd hy (not_le.mpr h2)
    · rfl
    · rfl
  · constructor
    · rw [positionClampStep_scaleX, scaleClampStep_scaleX_eq]
      simp only [eq_self_iff_true, if_true]
      split_ifs with h1 h2
      · rcases h2 with h2 | h2
        · exact absurd hx (not_le.mpr h2)
        · exact absurd hy (not_le.mpr h2)
      · rfl
      · rfl
    · rw [positionClampStep_scaleY, scaleClampStep_scaleY_eq]
      simp only [eq_self_iff_true, if_true]
      split_ifs with h1 h2
      · rcases h2 with h2 | h2
        · exact absurd hx (not_le.mpr h2)
        · exact absurd hy (not_le.mpr h2)
      · rfl
      · rfl

/-- C4 fails as stated under aspect lock: `scaleX = 1` is within its
axis bound `400/100 = 4`, yet because `scaleY = 5` exceeds the uniform
bound `3`, the lock branch rewrites `scaleX` to `3` as well. -/
theorem c4_counterexample :
    ¬((keepRectInsideCanvas ⟨50, 50, 100, 100, 1, 5, "blue", 3⟩ ⟨400, 300⟩ true).scaleX =
      (1 : ℚ)) := by
  have h : keepRectInsideCanvas ⟨50, 50, 100, 100, 1, 5, "blue", 3⟩ ⟨400, 300⟩ true =
      ⟨50, 0, 100, 100, 3, 3, "blue", 3⟩ := by
    norm_num [keepRectInsideCanvas, jsOr, clamp, Canvas.getWidth, Canvas.getHeight,
      Rect.getScaledWidth, Rect.getScaledHeight]
  rw [h]
  norm_num

/-- C4 witness: a rectangle whose effective scales are within bounds on
both axes is untouched by the free branch. -/
theorem c4_witness :
    (keepRectInsideCanvas ⟨50, 50, 100, 100, 2, 2, "blue", 3⟩ ⟨400, 300⟩ false).scaleX =
      (2 : ℚ) :=
  (c4_no_overcorrection ⟨50, 50, 100, 100, 2, 2, "blue", 3⟩ ⟨400, 300⟩).1.1 (by
    norm_num [jsOr])

/-! ### C5: idempotence -/

/-- C5: `keepRectInsideCanvas` is idempotent — running it twice with no
intervening mutation produces exactly the geometry of a single run, for
every rectangle state, canvas size and aspect-lock flag. -/
theorem c5_keepRectInsideCanvas_idem (r : Rect) (c : Canvas) (la : Bool) :
    keepRectInsideCanvas (keepRectInsideCanvas r c la) c la = keepRectInsideCanvas r c la := by
  simp only [keepRectInsideCanvas_eq_steps]
  rw [scaleClampStep_after_position r c.width c.height la, positionClampStep_idem]

/-! ### C6: the clamp scenarios on a 400×300 canvas -/

/-- C6: for a `100×100` base rectangle scaled by `(5,5)` on a `400×300`
canvas (any starting position): with `lockAspect = false` the scales are
clamped per-axis to `4` and `3` and the position is pinned to `(0,0)`;
with `lockAspect = true` both scales are clamped to `min(4,3) = 3`. -/
theorem c6_scenario_clamps (l t : ℚ) :
    (keepRectInsideCanvas ⟨l, t, 100, 100, 5, 5, "blue", 3⟩ ⟨400, 300⟩ false).scaleX = 4 ∧
    (keepRectInsideCanvas ⟨l, t, 100, 100, 5, 5, "blue", 3⟩ ⟨400, 300⟩ false).scaleY = 3 ∧
    (keepRectInsideCanvas ⟨l, t, 100, 100, 5, 5, "blue", 3⟩ ⟨400, 300⟩ false).left = 0 ∧
    (keepRectInsideCanvas ⟨l, t, 100, 100, 5, 5, "blue", 3⟩ ⟨400, 300⟩ false).top = 0 ∧
    (keepRectInsideCanvas ⟨l, t, 100, 100, 5, 5, "blue", 3⟩ ⟨400, 300⟩ true).scaleX = 3 ∧
    (keepRectInsideCanvas ⟨l, t, 100, 100, 5, 5, "blue", 3⟩ ⟨400, 300⟩ true).scaleY = 3 := by
  norm_num [keepRectInsideCanvas, jsOr, clamp_zero_zero, Canvas.getWidth, Canvas.getHeight,
    Rect.getScaledWidth, Rect.getScaledHeight]

/-! ### C7: the interval clamp and scenario 4 -/

/-- C7: positions are clamped by the standard interval clamp (`clamp`
agrees with `max lo (min v hi)` on well-formed intervals) into
`[0, max(canvasWidth − scaledWidth, 0)]` for `left` and
`[0, max(canvasHeight − scaledHeight, 0)]` for `top`; in particular, a
rectangle at `(380, 280)` with scaled size `100×100` on a `400×300`
canvas is clamped to `left = 300`, `top = 200`. -/
theorem c7_position_clamp_spec :
    (∀ v lo hi : ℚ, lo ≤ hi → clamp v lo hi = max lo (min v hi)) ∧
    (∀ (r : Rect) (c : Canvas) (la : Bool),
      (keepRectInsideCanvas r c la).left =
        clamp r.left 0
          (max (c.width - (keepRectInsideCanvas r c la).width *
            (keepRectInsideCanvas r c la).scaleX) 0) ∧
      (keepRectInsideCanvas r c la).top =
        clamp r.top 0
          (max (c.height - (keepRectInsideCanvas r c la).height *
            (keepRectInsideCanvas r c la).scaleY) 0)) ∧
    ((keepRectInsideCanvas ⟨380, 280, 100, 100, 1, 1, "blue", 3⟩ ⟨400, 300⟩ false).left = 300 ∧
     (keepRectInsideCanvas ⟨380, 280, 100, 100, 1, 1, "blue", 3⟩ ⟨400, 300⟩ false).top = 200) := by
  refine ⟨fun v lo hi h => clamp_eq_max_min v h, fun r c la => ?_, ?_⟩
  · simp only [keepRectInsideCanvas_eq_steps, positionClampStep_left, positionClampStep_top,
      positionClampStep_width, positionClampStep_height, positionClampStep_scaleX,
      positionClampStep_scaleY, scaleClampStep_left, scaleClampStep_top]
    refine ⟨?_, ?_⟩ <;> trivial
  · norm_num [keepRectInsideCanvas, jsOr, clamp, Canvas.getWidth, Canvas.getHeight,
      Rect.getScaledWidth, Rect.getScaledHeight]

/-- C7 witness: the interval-clamp characterization instantiated at
`v = 5`, interval `[0, 3]`. -/
theorem c7_witness : clamp 5 0 3 = max 0 (min 5 3) :=
  c7_position_clamp_spec.1 5 0 3 (by norm_num)

/-! ### C8: degenerate base sizes skip scale clamping -/

/-- C8: when the base width or base height is zero (the value JavaScript
normalizes any unset size to via `|| 0`), `keepRectInsideCanvas` skips
the scale clamp — both scale factors are returned unchanged — while the
position clamp still runs; the input is handled totally, not as an
error. -/
theorem c8_degenerate_skips_scale_clamp (r : Rect) (c : Canvas) (la : Bool)
    (h : r.width = 0 ∨ r.height = 0) :
    (keepRectInsideCanvas r c la).scaleX = r.scaleX ∧
    (keepRectInsideCanvas r c la).scaleY = r.scaleY ∧
    (keepRectInsideCanvas r c la).left =
      clamp r.left 0 (max (c.width - r.width * r.scaleX) 0) ∧
    (keepRectInsideCanvas r c la).top =
      clamp r.top 0 (max (c.height - r.height * r.scaleY) 0) := by
  have hG : ¬(jsOr r.width 0 > 0 ∧ jsOr r.height 0 > 0) := by
    rcases h with h | h
    · intro hc
      rw [h] at hc
      simp [jsOr] at hc
    · intro hc
      rw [h] at hc
      simp [jsOr] at hc
  have hS : scaleClampStep r c.width c.height la = r :=
    scaleClampStep_of_not_guard r c.width c.height la hG
  rw [keepRectInsideCanvas_eq_steps, hS]
  exact ⟨rfl, rfl, rfl, rfl⟩

/-- C8 witness: a zero-width rectangle keeps its scale factors and gets
its position clamped. -/
theorem c8_witness :
    (keepRectInsideCanvas ⟨500, -5, 0, 100, 2, 3, "blue", 1⟩ ⟨400, 300⟩ false).scaleX = 2 ∧
    (keepRectInsideCanvas ⟨500, -5, 0, 100, 2, 3, "blue", 1⟩ ⟨400, 300⟩ false).scaleY = 3 ∧
    (keepRectInsideCanvas ⟨500, -5, 0, 100, 2, 3, "blue", 1⟩ ⟨400, 300⟩ false).left =
      clamp 500 0 (max (400 - 0 * 2) 0) ∧
    (keepRectInsideCanvas ⟨500, -5, 0, 100, 2, 3, "blue", 1⟩ ⟨400, 300⟩ false).top =
      clamp (-5) 0 (max (300 - 100 * 3) 0) :=
  c8_degenerate_skips_scale_clamp ⟨500, -5, 0, 100, 2, 3, "blue", 1⟩ ⟨400, 300⟩ false
    (Or.inl rfl)

/-! ### C9: totality, no division by zero -/

/-- C9: the checked variant, whose divisions signal a zero divisor
instead of totalizing, always succeeds and agrees with
`keepRectInsideCanvas`: the two divisions are evaluated only under the
guard `baseWidth > 0 ∧ baseHeight > 0`, so no division by zero occurs
and the function is total on all (rational) inputs. -/
theorem c9_no_division_by_zero (r : Rect) (c : Canvas) (la : Bool) :
    keepRectInsideCanvasChecked r c la = some (keepRectInsideCanvas r c la) := by
  rw [keepRectInsideCanvas_eq_steps]
  simp only [keepRectInsideCanvasChecked, scaleClampStep, Canvas.getWidth, Canvas.getHeight]
  by_cases hG : jsOr r.width 0 > 0 ∧ jsOr r.height 0 > 0
  · rw [if_pos hG, if_pos hG, checkedDiv_of_ne c.width (ne_of_gt hG.1),
        checkedDiv_of_ne c.height (ne_of_gt hG.2), Option.some_bind, Option.some_bind]
    split_ifs <;> rfl
  · rw [if_neg hG, if_neg hG]
    rfl

/-! ### C10: frame — untouched fields -/

/-- C10: `keepRectInsideCanvas` only ever changes `left`, `top`,
`scaleX` and `scaleY` (besides refreshing cached corner data and
requesting a redraw); the base width, base height, stroke color and
stroke width are unchanged by every call. -/
theorem c10_keepRectInsideCanvas_frame (r : Rect) (c : Canvas) (la : Bool) :
    (keepRectInsideCanvas r c la).width = r.width ∧
    (keepRectInsideCanvas r c la).height = r.height ∧
    (keepRectInsideCanvas r c la).stroke = r.stroke ∧
    (keepRectInsideCanvas r c la).strokeWidth = r.strokeWidth := by
  rw [keepRectInsideCanvas_eq_steps]
  exact ⟨scaleClampStep_width r c.width c.height la,
    scaleClampStep_height r c.width c.height la,
    scaleClampStep_stroke r c.width c.height la,
    scaleClampStep_strokeWidth r c.width c.height la⟩

/-! ### C3: reconfiguration and the rectangle's geometry -/

/-- C3 (amended): on every configuration update after the first
initialization, the reconfigure step overwrites the rectangle's `left`,
`top`, `width` and `height` with the incoming configuration values
(exactly as the first initialization does) — the current position and
size do not survive; only the scale factors are carried over, so a
rectangle still at the default scales reconfigures to precisely the
initial-creation result. -/
theorem c3_reconfigure_overwrites_geometry (r : Rect) (c : Canvas) (args : PythonArgs) :
    (reconfigureRect r c args).width = args.rectWidth ∧
    (reconfigureRect r c args).height = args.rectHeight ∧
    (r.scaleX = 1 → r.scaleY = 1 → reconfigureRect r c args = mkInitialRect args c) := by
  refine ⟨?_, ?_, fun h1 h2 => ?_⟩
  · rw [reconfigureRect, keepRectInsideCanvas_eq_steps]
    exact scaleClampStep_width _ c.width c.height args.lockAspect
  · rw [reconfigureRect, keepRectInsideCanvas_eq_steps]
    exact scaleClampStep_height _ c.width c.height args.lockAspect
  · rw [reconfigureRect, mkInitialRect]
    exact congrArg (fun x => keepRectInsideCanvas x c args.lockAspect)
      (Rect.ext rfl rfl rfl rfl h1 h2 rfl rfl)

/-- C3 fails as originally stated: a configuration update carrying
`rectLeft = 10`, `rectTop = 20` moves a rectangle currently at
`(50, 60)` — position and size are re-read from every update, not only
from the first one. -/
theorem c3_counterexample :
    ¬((reconfigureRect ⟨50, 60, 100, 100, 1, 1, "blue", 3⟩ ⟨400, 300⟩
        ⟨400, 300, 20, 10, 100, 100, true, "red", 2, "", false⟩).left = 50 ∧
      (reconfigureRect ⟨50, 60, 100, 100, 1, 1, "blue", 3⟩ ⟨400, 300⟩
        ⟨400, 300, 20, 10, 100, 100, true, "red", 2, "", false⟩).top = 60 ∧
      (reconfigureRect ⟨50, 60, 100, 100, 1, 1, "blue", 3⟩ ⟨400, 300⟩
        ⟨400, 300, 20, 10, 100, 100, true, "red", 2, "", false⟩).width = 100 ∧
      (reconfigureRect ⟨50, 60, 100, 100, 1, 1, "blue", 3⟩ ⟨400, 300⟩
        ⟨400, 300, 20, 10, 100, 100, true, "red", 2, "", false⟩).height = 100) := by
  have h : reconfigureRect ⟨50, 60, 100, 100, 1, 1, "blue", 3⟩ ⟨400, 300⟩
      ⟨400, 300, 20, 10, 100, 100, true, "red", 2, "", false⟩ =
      ⟨10, 20, 100, 100, 1, 1, "red", 2⟩ := by
    norm_num [reconfigureRect, keepRectInsideCanvas, jsOr, clamp, Canvas.getWidth,
      Canvas.getHeight, Rect.getScaledWidth, Rect.getScaledHeight]
  rw [h]
  norm_num

/-- C3 witness: a default-scale rectangle reconfigures to the same
geometry the first initialization would produce from the incoming
configuration. -/
theorem c3_witness :
    reconfigureRect ⟨50, 60, 80, 90, 1, 1, "blue", 3⟩ ⟨400, 300⟩
        ⟨400, 300, 20, 10, 100, 100, true, "red", 2, "", false⟩ =
      mkInitialRect ⟨400, 300, 20, 10, 100, 100, true, "red", 2, "", false⟩ ⟨400, 300⟩ :=
  (c3_reconfigure_overwrites_geometry ⟨50, 60, 80, 90, 1, 1, "blue", 3⟩ ⟨400, 300⟩
    ⟨400, 300, 20, 10, 100, 100, true, "red", 2, "", false⟩).2.2 rfl rfl

end StreamlitCropper
